import Mathlib

/-!
Formal model of `src/cprorealtime.py` (`RealTimeDetector`): a shallow
embedding of the status computation, the capture loop, the inference loop,
the FPS counter, the serial sender, the main control loop, and the shutdown
path, with theorems checking the specification's claims against it.

Conventions used throughout:
* Python strings are modelled as `String` when compared for equality, and
  as `List Char` where per-character operations (lowercasing, substring
  search) matter.
* Wall-clock times are abstract: naturals for the control loop (only
  differences and a `> 5` threshold matter) and rationals for the FPS
  computation (exact division).
* Each Python loop becomes a fold over the list of inputs one iteration
  consumes (camera reads, consumed results, call times); one loop
  iteration is a pure step function on an explicit state record.
-/

/-- Configured frame-skip stride (`FRAME_SKIP = 2` in the source). -/
def FRAME_SKIP : Nat := 2

/-- Lowercase a string character-wise, modelling Python's `label.lower()`. -/
def strLower (s : List Char) : List Char := s.map Char.toLower

/-- Boolean test that `tok` occurs at the start of `s`. -/
def startsWithTok : List Char → List Char → Bool
  | [], _ => true
  | _ :: _, [] => false
  | t :: ts, c :: cs => (t == c) && startsWithTok ts cs

/-- Boolean substring test, modelling Python's `tok in s` on strings. -/
def isSubstr (tok : List Char) : List Char → Bool
  | [] => tok.isEmpty
  | c :: cs => startsWithTok tok (c :: cs) || isSubstr tok cs

/-- The "helmet" token searched for in lowercased labels. -/
def helmetTok : List Char := ['h', 'e', 'l', 'm', 'e', 't']

/-- The "vest" token searched for in lowercased labels. -/
def vestTok : List Char := ['v', 'e', 's', 't']

/-- Status computation of `RealTimeDetector.process_frames` (lines 86-94):
`has_helmet`/`has_vest` are case-insensitive substring searches over the
label list, and the status is `ACCESS_GRANTED` exactly when both hold. -/
def computeStatus (labels : List (List Char)) : String :=
  let has_helmet := labels.any (fun label => isSubstr helmetTok (strLower label))
  let has_vest := labels.any (fun label => isSubstr vestTok (strLower label))
  if has_helmet && has_vest then "ACCESS_GRANTED" else "ACCESS_DENIED"

/-- Serial port handle; only its `is_open` flag matters to the model. -/
structure SerialPort where
  is_open : Bool

/-- Raw serial write primitive (`ser.write` plus `ser.flush`): either the
message is delivered or a `SerialException` is raised, selected by the
per-call failure flag `wfail`. -/
def serialWrite (wfail : Bool) (message : String) : Except String (List String) :=
  if wfail then Except.error "SerialException" else Except.ok [message]

/-- `RealTimeDetector.send_to_esp32` (lines 103-112): when a serial port is
present and open, write `status + "\n"` and catch any `SerialException`,
logging it; otherwise do nothing. Returns the messages written to the wire
and the log lines printed. -/
def send_to_esp32 (ser : Option SerialPort) (wfail : Bool) (status : String) :
    List String × List String :=
  match ser with
  | some p =>
    if p.is_open then
      match serialWrite wfail (status ++ "\n") with
      | Except.ok w => (w, ["Sent to ESP32: " ++ status])
      | Except.error e => ([], ["Serial communication error: " ++ e])
    else ([], [])
  | none => ([], [])

/-- A sequence of `send_to_esp32` calls, each with its own write-failure
outcome; wire messages and logs are concatenated. The sender keeps no state
between calls. -/
def sendSeq (ser : Option SerialPort) : List (Bool × String) → List String × List String
  | [] => ([], [])
  | (f, st) :: rest =>
    let r := send_to_esp32 ser f st
    let rs := sendSeq ser rest
    (r.1 ++ rs.1, r.2 ++ rs.2)

/-- Control-loop state relevant to serial reporting (lines 49-50):
`current_status` and `last_detection_time`. -/
structure RunState where
  current_status : String
  last_detection_time : Nat

/-- Control-loop state set in `__init__`: status `"CHECKING"`,
`last_detection_time` equal to the construction time `t0`. -/
def initialRunState (t0 : Nat) : RunState :=
  { current_status := "CHECKING", last_detection_time := t0 }

/-- Result consumption of one loop iteration (lines 140-147): when a result
with status `status` has been taken from the result queue and differs from
`current_status`, `send_to_esp32` is called and the state is updated;
otherwise nothing happens. Returns the new state and the statuses passed
to `send_to_esp32`. -/
def consumeResult (res : Option String) (t : Nat) (s : RunState) : RunState × List String :=
  match res with
  | none => (s, [])
  | some status =>
    if status ≠ s.current_status then
      ({ current_status := status, last_detection_time := t }, [status])
    else (s, [])

/-- Periodic refresh of one loop iteration (lines 167-170): when more than 5
seconds have elapsed since `last_detection_time`, the current status is
re-sent and the timestamp reset. -/
def refreshStep (t : Nat) (s : RunState) : RunState × List String :=
  if t - s.last_detection_time > 5 then
    ({ s with last_detection_time := t }, [s.current_status])
  else (s, [])

/-- Output of one control-loop iteration: resulting state, the statuses
passed to `send_to_esp32` (`sends`), and the messages actually written to
the serial wire (`wires`). -/
structure StepOut where
  state : RunState
  sends : List String
  wires : List String

/-- One iteration of `RealTimeDetector.run`'s main loop (lines 139-170),
abstracting one wall-clock time `t` per iteration: consume an available
result, then fire the periodic refresh. -/
def runStep (ser : Option SerialPort) (wfail : Bool) (res : Option String) (t : Nat)
    (s : RunState) : StepOut :=
  let c := consumeResult res t s
  let r := refreshStep t c.1
  let sends := c.2 ++ r.2
  { state := r.1, sends := sends,
    wires := (sends.map (fun st => (send_to_esp32 ser wfail st).1)).flatten }

/-- A control-loop trace: one `(result?, time)` input per iteration, folded
through `runStep`; all sends and wire messages are collected in order. -/
def runTrace (ser : Option SerialPort) (wfail : Bool) :
    List (Option String × Nat) → RunState → StepOut
  | [], s => { state := s, sends := [], wires := [] }
  | (res, t) :: rest, s =>
    let o := runStep ser wfail res t s
    let o' := runTrace ser wfail rest o.state
    { state := o'.state, sends := o.sends ++ o'.sends, wires := o.wires ++ o'.wires }

/-- Number of status transitions in a trace: consumed results whose status
differs from the last reported status (initially `cur`). -/
def countTransitions : List (Option String × Nat) → String → Nat
  | [], _ => 0
  | (none, _) :: rest, cur => countTransitions rest cur
  | (some st, _) :: rest, cur =>
    (if st ≠ cur then 1 else 0) + countTransitions rest st

/-- Number of elapsed 5-second windows without a transition in a trace: the
window clock starts at `lastT`, is reset by every transition and by every
refresh, and a refresh fires at an iteration whose time exceeds the clock
by more than 5. -/
def countRefreshes : List (Option String × Nat) → String → Nat → Nat
  | [], _, _ => 0
  | (res, t) :: rest, cur, lastT =>
    let p := match res with
      | some st => if st ≠ cur then (st, t) else (cur, lastT)
      | none => (cur, lastT)
    if t - p.2 > 5 then 1 + countRefreshes rest p.1 t
    else countRefreshes rest p.1 p.2

/-- State of the capture worker: the shared `running` flag, the frame
counter, and the bounded frame queue (`maxsize=2`), plus ghost accumulators
recording which frames passed the stride test (`attempted`) and which were
actually enqueued (`forwarded`). -/
structure CaptureState where
  running : Bool
  frame_count : Nat
  frame_queue : List Nat
  attempted : List Nat
  forwarded : List Nat

/-- One successful-read iteration of `capture_frames` (lines 60-66): the
stride test `frame_count % FRAME_SKIP == 0` gates a non-blocking push into
the capacity-2 queue, and the counter is incremented afterwards. -/
def captureStep (s : CaptureState) (frame : Nat) : CaptureState :=
  if s.frame_count % FRAME_SKIP = 0 then
    if s.frame_queue.length < 2 then
      { s with frame_queue := s.frame_queue ++ [frame],
               attempted := s.attempted ++ [frame],
               forwarded := s.forwarded ++ [frame],
               frame_count := s.frame_count + 1 }
    else
      { s with attempted := s.attempted ++ [frame],
               frame_count := s.frame_count + 1 }
  else { s with frame_count := s.frame_count + 1 }

/-- The capture worker loop `capture_frames` (lines 57-69) over a list of
camera read outcomes (`some frame` on success, `none` when `ret` is false):
the loop runs while `running` holds, and a failed read breaks out of the
loop without touching `running`. -/
def capture_frames : List (Option Nat) → CaptureState → CaptureState
  | [], s => s
  | r :: rest, s =>
    if s.running then
      match r with
      | some frame => capture_frames rest (captureStep s frame)
      | none => s
    else s

/-- Capture state at thread start: `running = True`, `frame_count = 0`,
empty queue (set in `__init__`, lines 45-48). -/
def initialCaptureState : CaptureState :=
  { running := true, frame_count := 0, frame_queue := [], attempted := [], forwarded := [] }

/-- State of the inference worker: the `running` flag and the two bounded
queues; each pending frame is abstracted to the list of labels the detector
returns on it. -/
structure ProcState where
  running : Bool
  frame_queue : List (List (List Char))
  result_queue : List (String × List (List Char))

/-- One iteration of `process_frames` (lines 73-101): if a frame is
available, pop it, run detection (abstracted: the frame carries its label
list), compute the status, and push the result non-blockingly into the
capacity-2 result queue. -/
def processStep (s : ProcState) : ProcState :=
  match s.frame_queue with
  | [] => s
  | labels :: rest =>
    let status := computeStatus labels
    if s.result_queue.length < 2 then
      { s with frame_queue := rest, result_queue := s.result_queue ++ [(status, labels)] }
    else { s with frame_queue := rest }

/-- The inference worker loop `process_frames` (lines 71-101), polling for
`fuel` iterations while `running` holds. -/
def process_frames : Nat → ProcState → ProcState
  | 0, s => s
  | fuel + 1, s => if s.running then process_frames fuel (processStep s) else s

/-- FPS-measurement state (lines 52-55): window start time, per-window
counter, and the last reported FPS value. -/
structure FpsState where
  fps_start_time : ℚ
  fps_frame_count : Nat
  current_fps : ℚ

/-- FPS state from `__init__`: counter 0, FPS 0, window start `t0`. -/
def initialFpsState (t0 : ℚ) : FpsState :=
  { fps_start_time := t0, fps_frame_count := 0, current_fps := 0 }

/-- `RealTimeDetector.calculate_fps` (lines 114-122) at wall-clock time
`now`: increment the counter; once it reaches 30, report `count / elapsed`
and reset counter and window start. -/
def calculate_fps (now : ℚ) (s : FpsState) : FpsState :=
  let c := s.fps_frame_count + 1
  if 30 ≤ c then
    { fps_start_time := now, fps_frame_count := 0,
      current_fps := (c : ℚ) / (now - s.fps_start_time) }
  else { s with fps_frame_count := c }

/-- Fold of `calculate_fps` over the call times of successive consumed
results. -/
def fpsTrace : List ℚ → FpsState → FpsState
  | [], s => s
  | t :: ts, s => fpsTrace ts (calculate_fps t s)

/-- Resource release events observable during shutdown. -/
inductive ReleaseEvent
  | camRelease | serClose | dispDestroy
  deriving DecidableEq

/-- System resources tracked by shutdown: the shared `running` flag, whether
the camera is open, and the serial handle. -/
structure SysState where
  running : Bool
  cap_open : Bool
  ser : Option SerialPort

/-- `RealTimeDetector.cleanup` (lines 178-190): clear `running`, release the
camera if open, close the serial port if present and open, destroy the
display windows. Returns the new state and the release events in order. -/
def cleanup (s : SysState) : SysState × List ReleaseEvent :=
  let camEv := if s.cap_open then [ReleaseEvent.camRelease] else []
  let serEv := match s.ser with
    | some p => if p.is_open then [ReleaseEvent.serClose] else []
    | none => []
  let ser' : Option SerialPort := match s.ser with
    | some _ => some { is_open := false }
    | none => none
  ({ running := false, cap_open := false, ser := ser' },
    camEv ++ serEv ++ [ReleaseEvent.dispDestroy])

/-- The quit-key shutdown path: `run`'s loop breaks, its `finally` block
calls `cleanup` (line 176), and then the top-level `finally` in `__main__`
calls `cv2.destroyAllWindows()` once more (line 200). -/
def quitShutdown (s : SysState) : SysState × List ReleaseEvent :=
  let c := cleanup s
  (c.1, c.2 ++ [ReleaseEvent.dispDestroy])

/-- `startsWithTok` agrees with the mathematical meaning of "is a prefix
of": some suffix completes `tok` to the whole list. -/
theorem startsWithTok_iff (tok s : List Char) :
    startsWithTok tok s = true ↔ ∃ post, s = tok ++ post := by
  induction tok generalizing s with
  | nil => simp [startsWithTok]
  | cons t ts ih =>
    cases s with
    | nil => simp [startsWithTok]
    | cons c cs =>
      simp only [startsWithTok, Bool.and_eq_true, beq_iff_eq, ih, List.cons_append]
      constructor
      · rintro ⟨rfl, post, rfl⟩
        exact ⟨post, rfl⟩
      · rintro ⟨post, h⟩
        injection h with h1 h2
        exact ⟨h1.symm, post, h2⟩

/-- `isSubstr` agrees with the mathematical meaning of "occurs as a
contiguous substring". -/
theorem isSubstr_iff (tok s : List Char) :
    isSubstr tok s = true ↔ ∃ pre post, s = pre ++ tok ++ post := by
  induction s with
  | nil =>
    simp only [isSubstr, List.isEmpty_iff]
    constructor
    · rintro rfl; exact ⟨[], [], rfl⟩
    · rintro ⟨pre, post, h⟩
      rcases List.append_eq_nil.mp (List.append_eq_nil.mp h.symm).1 with ⟨-, h2⟩
      exact h2
  | cons c cs ih =>
    simp only [isSubstr, Bool.or_eq_true, startsWithTok_iff, ih]
    constructor
    · rintro (⟨post, h⟩ | ⟨pre, post, h⟩)
      · exact ⟨[], post, by simpa using h⟩
      · exact ⟨c :: pre, post, by simp [h]⟩
    · rintro ⟨pre, post, h⟩
      cases pre with
      | nil => exact Or.inl ⟨post, by simpa using h⟩
      | cons p ps =>
        rw [List.cons_append, List.cons_append] at h
        injection h with h1 h2
        exact Or.inr ⟨ps, post, by simpa using h2⟩

/-- C1: for every list of detection labels, the computed access status is
`"ACCESS_GRANTED"` iff some label contains `"helmet"` as a case-insensitive
substring and some label contains `"vest"` as a case-insensitive substring;
in every other case (the empty list included) it is `"ACCESS_DENIED"`. -/
theorem computeStatus_spec (labels : List (List Char)) :
    (computeStatus labels = "ACCESS_GRANTED" ↔
      (∃ l ∈ labels, ∃ pre post, strLower l = pre ++ helmetTok ++ post) ∧
      (∃ l ∈ labels, ∃ pre post, strLower l = pre ++ vestTok ++ post)) ∧
    (computeStatus labels = "ACCESS_GRANTED" ∨
      computeStatus labels = "ACCESS_DENIED") := by
  have key : computeStatus labels = "ACCESS_GRANTED" ↔
      (labels.any (fun l => isSubstr helmetTok (strLower l)) &&
        labels.any (fun l => isSubstr vestTok (strLower l))) = true := by
    dsimp only [computeStatus]
    split
    · next h => exact iff_of_true rfl h
    · next h => exact iff_of_false (by decide) h
  refine ⟨key.trans ?_, ?_⟩
  · simp only [Bool.and_eq_true, List.any_eq_true, isSubstr_iff]
  · dsimp only [computeStatus]
    split
    · exact Or.inl rfl
    · exact Or.inr rfl

example : computeStatus ["Hard Helmet".toList, "Safety_Vest".toList] = "ACCESS_GRANTED" := by decide
example : computeStatus ["Helmet".toList] = "ACCESS_DENIED" := by decide
example : computeStatus [] = "ACCESS_DENIED" := by decide

/-- `captureStep` leaves the `running` flag untouched. -/
theorem captureStep_running (s : CaptureState) (f : Nat) :
    (captureStep s f).running = s.running := by
  dsimp only [captureStep]
  split
  · split <;> rfl
  · rfl

/-- `capture_frames` never writes the `running` flag. -/
theorem capture_frames_running (reads : List (Option Nat)) (s : CaptureState) :
    (capture_frames reads s).running = s.running := by
  induction reads generalizing s with
  | nil => rfl
  | cons r rest ih =>
    dsimp only [capture_frames]
    split
    · cases r with
      | some f => rw [ih, captureStep_running]
      | none => rfl
    · rfl

/-- C4 (counterexample to the claim as stated): from the initial capture
state, a mid-run read failure breaks the capture loop (the subsequent
successful read is never processed, so `frame_count` stays at 1) but the
`running` flag does not become false. -/
theorem capture_read_failure_counterexample :
    (capture_frames [some 0, none, some 1] initialCaptureState).running = true ∧
    (capture_frames [some 0, none, some 1] initialCaptureState).frame_count = 1 ∧
    ¬ (capture_frames [some 0, none, some 1] initialCaptureState).running = false := by
  decide

/-- C4 (amended): a mid-run read failure terminates the capture stage — the
reads after the failure are never processed, the loop's effect is that of
the successful prefix alone — but the failure does not propagate: the
`running` flag is left `true` and the other stages are not signalled. -/
theorem capture_read_failure_stops_stage_only (pre post : List (Option Nat))
    (s : CaptureState) (hpre : ∀ r ∈ pre, r.isSome) (hrun : s.running = true) :
    capture_frames (pre ++ none :: post) s = capture_frames pre s ∧
    (capture_frames (pre ++ none :: post) s).running = true := by
  have key : capture_frames (pre ++ none :: post) s = capture_frames pre s := by
    induction pre generalizing s with
    | nil => simp [capture_frames, hrun]
    | cons r pre' ih =>
      obtain ⟨f, rfl⟩ := Option.isSome_iff_exists.mp (hpre r (List.mem_cons_self r pre'))
      rw [List.cons_append]
      dsimp only [capture_frames]
      rw [if_pos hrun, if_pos hrun]
      exact ih (captureStep s f) (fun r hr => hpre r (List.mem_cons_of_mem _ hr))
        ((captureStep_running s f).trans hrun)
  refine ⟨key, ?_⟩
  rw [key, capture_frames_running, hrun]

/-- Closed witness for the amended C4 theorem. -/
theorem capture_read_failure_stops_stage_only_witness :
    capture_frames [some 5, none, some 7] initialCaptureState =
      capture_frames [some 5] initialCaptureState ∧
    (capture_frames [some 5, none, some 7] initialCaptureState).running = true :=
  capture_read_failure_stops_stage_only [some 5] [some 7] initialCaptureState
    (by decide) rfl

/-- C5: a successfully read frame is enqueued exactly when its stride test
passes and the capacity-2 queue is not full; pushing to a full queue is a
no-op on the queue; the queue stays bounded by 2; the counter always
advances; and the loop continues with the next read (it never blocks). -/
theorem captureStep_policy (s : CaptureState) (frame : Nat)
    (rest : List (Option Nat)) (hrun : s.running = true) :
    ((captureStep s frame).frame_queue =
      if s.frame_count % FRAME_SKIP = 0 ∧ s.frame_queue.length < 2
      then s.frame_queue ++ [frame] else s.frame_queue) ∧
    (s.frame_queue.length ≥ 2 → (captureStep s frame).frame_queue = s.frame_queue) ∧
    (s.frame_queue.length ≤ 2 → (captureStep s frame).frame_queue.length ≤ 2) ∧
    ((captureStep s frame).frame_count = s.frame_count + 1) ∧
    (capture_frames (some frame :: rest) s = capture_frames rest (captureStep s frame)) := by
  refine ⟨?_, ?_, ?_, ?_, ?_⟩
  · dsimp only [captureStep]
    split
    · next h1 =>
      split
      · next h2 => rw [if_pos ⟨h1, h2⟩]
      · next h2 => rw [if_neg (fun hc => h2 hc.2)]
    · next h1 => rw [if_neg (fun hc => h1 hc.1)]
  · intro hfull
    dsimp only [captureStep]
    split
    · split
      · next h2 => omega
      · rfl
    · rfl
  · intro hle
    dsimp only [captureStep]
    split
    · split
      · next h2 => simpa using by omega
      · exact hle
    · exact hle
  · dsimp only [captureStep]
    split
    · split <;> rfl
    · rfl
  · dsimp only [capture_frames]
    rw [if_pos hrun]

/-- Closed witness for the C5 theorem, at a state whose queue is full. -/
theorem captureStep_policy_witness :
    let s : CaptureState :=
      { running := true, frame_count := 0, frame_queue := [8, 9],
        attempted := [8], forwarded := [8] }
    ((captureStep s 3).frame_queue =
      if s.frame_count % FRAME_SKIP = 0 ∧ s.frame_queue.length < 2
      then s.frame_queue ++ [3] else s.frame_queue) ∧
    (s.frame_queue.length ≥ 2 → (captureStep s 3).frame_queue = s.frame_queue) ∧
    (s.frame_queue.length ≤ 2 → (captureStep s 3).frame_queue.length ≤ 2) ∧
    ((captureStep s 3).frame_count = s.frame_count + 1) ∧
    (capture_frames [some 3, some 4] s = capture_frames [some 4] (captureStep s 3)) :=
  captureStep_policy
    { running := true, frame_count := 0, frame_queue := [8, 9],
      attempted := [8], forwarded := [8] } 3 [some 4] rfl

/-- `captureStep` increments the frame counter unconditionally. -/
theorem captureStep_count (s : CaptureState) (f : Nat) :
    (captureStep s f).frame_count = s.frame_count + 1 := by
  dsimp only [captureStep]
  split
  · split <;> rfl
  · rfl

/-- The stride test alone decides whether a frame joins the `attempted`
accumulator. -/
theorem captureStep_attempted (s : CaptureState) (f : Nat) :
    (captureStep s f).attempted =
      s.attempted ++ (if s.frame_count % FRAME_SKIP = 0 then [f] else []) := by
  dsimp only [captureStep]
  split
  · next h => split <;> simp [h]
  · next h => simp [h]

/-- A frame joins the `forwarded` accumulator exactly when the stride test
passes and the queue has room. -/
theorem captureStep_forwarded (s : CaptureState) (f : Nat) :
    (captureStep s f).forwarded = s.forwarded ++
      (if s.frame_count % FRAME_SKIP = 0 ∧ s.frame_queue.length < 2
        then [f] else []) := by
  dsimp only [captureStep]
  split
  · next h1 =>
    split
    · next h2 => simp [h1, h2]
    · next h2 => simp [h1, h2]
  · next h1 => simp [h1]

/-- The capture loop only ever appends to the `forwarded` accumulator. -/
theorem capture_frames_forwarded_append (reads : List (Option Nat)) (s : CaptureState) :
    ∃ l, (capture_frames reads s).forwarded = s.forwarded ++ l := by
  induction reads generalizing s with
  | nil => exact ⟨[], by simp [capture_frames]⟩
  | cons r rest ih =>
    dsimp only [capture_frames]
    split
    · cases r with
      | some f =>
        obtain ⟨l, hl⟩ := ih (captureStep s f)
        exact ⟨_, by rw [hl, captureStep_forwarded, List.append_assoc]⟩
      | none => exact ⟨[], by simp⟩
    · exact ⟨[], by simp⟩

/-- Over a run of successful reads, the frames that pass the stride test are
those whose sequence number (starting at the state's counter) is divisible
by `FRAME_SKIP`. -/
theorem capture_frames_attempted (frames : List Nat) (s : CaptureState)
    (hrun : s.running = true) :
    (capture_frames (frames.map some) s).attempted =
      s.attempted ++
        ((List.enumFrom s.frame_count frames).filter
          (fun p => p.1 % FRAME_SKIP == 0)).map Prod.snd := by
  induction frames generalizing s with
  | nil => simp [capture_frames, List.enumFrom]
  | cons f fs ih =>
    rw [List.map_cons]
    dsimp only [capture_frames]
    rw [if_pos hrun]
    rw [ih (captureStep s f) ((captureStep_running s f).trans hrun)]
    rw [captureStep_attempted, captureStep_count, List.append_assoc]
    congr 1
    simp only [List.enumFrom, List.filter_cons]
    by_cases h : s.frame_count % FRAME_SKIP = 0
    · rw [if_pos h]
      simp [h]
    · rw [if_neg h]
      simp [h]

/-- C9: from the initial capture state, the frames selected by the sampling
test (those for which a queue push is attempted) are exactly the frames
whose zero-based capture sequence number is congruent to 0 modulo
`FRAME_SKIP` — the test precedes the counter increment — and the very first
successfully read frame is both selected and actually enqueued, the queue
being empty at that point. -/
theorem capture_stride_selection (frames : List Nat) (f : Nat) (rest : List Nat) :
    ((capture_frames (frames.map some) initialCaptureState).attempted =
      ((frames.enum.filter (fun p => p.1 % FRAME_SKIP == 0)).map Prod.snd)) ∧
    ((capture_frames ((f :: rest).map some) initialCaptureState).forwarded.head? =
      some f) := by
  constructor
  · rw [capture_frames_attempted _ _ rfl]
    simp [initialCaptureState, List.enum]
  · rw [List.map_cons]
    dsimp only [capture_frames]
    rw [if_pos (show initialCaptureState.running = true from rfl)]
    obtain ⟨l, hl⟩ :=
      capture_frames_forwarded_append (rest.map some) (captureStep initialCaptureState f)
    rw [hl, captureStep_forwarded]
    simp [initialCaptureState, FRAME_SKIP]

/-- The FPS counter counts consumed results modulo 30 along any trace. -/
theorem fpsTrace_count (ts : List ℚ) (s : FpsState) (h : s.fps_frame_count < 30) :
    (fpsTrace ts s).fps_frame_count = (s.fps_frame_count + ts.length) % 30 := by
  induction ts generalizing s with
  | nil => simp [fpsTrace, Nat.mod_eq_of_lt h]
  | cons t ts ih =>
    dsimp only [fpsTrace, calculate_fps]
    by_cases h30 : 30 ≤ s.fps_frame_count + 1
    · rw [if_pos h30, ih _ (by norm_num)]
      simp only [List.length_cons]
      omega
    · rw [if_neg h30, ih _ (by simp; omega)]
      simp only [List.length_cons]
      omega

/-- C6: the FPS computation leaves the reported value and the window start
unchanged and merely counts while fewer than 30 results have been consumed
in the window; at the 30th it reports `30 / elapsed` for the closing window
and resets both the counter (to 0) and the window start (to the current
time); and along any trace the counter equals the number of consumed
results modulo 30, so a reset happens exactly every 30 consumed results. -/
theorem calculate_fps_window (s : FpsState) (now : ℚ) (ts : List ℚ) :
    (s.fps_frame_count + 1 < 30 →
      calculate_fps now s = { s with fps_frame_count := s.fps_frame_count + 1 }) ∧
    (s.fps_frame_count = 29 →
      calculate_fps now s =
        { fps_start_time := now, fps_frame_count := 0,
          current_fps := 30 / (now - s.fps_start_time) }) ∧
    (s.fps_frame_count < 30 →
      (fpsTrace ts s).fps_frame_count = (s.fps_frame_count + ts.length) % 30) := by
  refine ⟨?_, ?_, fun h => fpsTrace_count ts s h⟩
  · intro h
    dsimp only [calculate_fps]
    rw [if_neg (by omega)]
  · intro h
    dsimp only [calculate_fps]
    rw [if_pos (by omega)]
    rw [h]
    norm_num

/-- Closed witness for the C6 theorem: a mid-window call, the 30th call, and
a three-call trace from the initial state. -/
theorem calculate_fps_window_witness :
    (calculate_fps 2 (initialFpsState 0) =
      { fps_start_time := 0, fps_frame_count := 1, current_fps := 0 }) ∧
    (calculate_fps 10 { fps_start_time := 0, fps_frame_count := 29, current_fps := 7 } =
      { fps_start_time := 10, fps_frame_count := 0, current_fps := 30 / (10 - 0) }) ∧
    ((fpsTrace [1, 2, 3] (initialFpsState 0)).fps_frame_count = (0 + 3) % 30) :=
  ⟨(calculate_fps_window (initialFpsState 0) 2 []).1 (by norm_num [initialFpsState]),
   (calculate_fps_window { fps_start_time := 0, fps_frame_count := 29, current_fps := 7 }
      10 []).2.1 rfl,
   (calculate_fps_window (initialFpsState 0) 0 [1, 2, 3]).2.2 (by norm_num [initialFpsState])⟩

/-- C7: with no serial port (startup open failure), every `send_to_esp32`
call is a no-op — nothing written, nothing logged, no exception modelled
as escaping; with an open port, a `SerialException` during a send is caught
and logged locally and nothing reaches the wire; a successful send writes
the single framed message; and a failed call leaves the wire output of all
subsequent calls unchanged — no backoff, no reconnect, no state carried. -/
theorem send_degraded_and_transient (p : SerialPort) (wfail : Bool) (st st1 : String)
    (calls : List (Bool × String)) (hopen : p.is_open = true) :
    (send_to_esp32 none wfail st = ([], [])) ∧
    (send_to_esp32 (some p) true st =
      ([], ["Serial communication error: SerialException"])) ∧
    (send_to_esp32 (some p) false st =
      ([st ++ "\n"], ["Sent to ESP32: " ++ st])) ∧
    ((sendSeq (some p) ((true, st1) :: calls)).1 = (sendSeq (some p) calls).1) := by
  refine ⟨rfl, ?_, ?_, ?_⟩
  · dsimp only [send_to_esp32, serialWrite]
    rw [if_pos hopen]
    rfl
  · dsimp only [send_to_esp32, serialWrite]
    rw [if_pos hopen]
    rfl
  · dsimp only [sendSeq, send_to_esp32, serialWrite]
    rw [if_pos hopen]
    rfl

/-- Closed witness for the C7 theorem. -/
theorem send_degraded_and_transient_witness :
    (send_to_esp32 none false "ACCESS_GRANTED" = ([], [])) ∧
    (send_to_esp32 (some { is_open := true }) true "ACCESS_GRANTED" =
      ([], ["Serial communication error: SerialException"])) ∧
    (send_to_esp32 (some { is_open := true }) false "ACCESS_GRANTED" =
      (["ACCESS_GRANTED" ++ "\n"], ["Sent to ESP32: " ++ "ACCESS_GRANTED"])) ∧
    ((sendSeq (some { is_open := true })
        ((true, "ACCESS_DENIED") :: [(false, "ACCESS_GRANTED")])).1 =
      (sendSeq (some { is_open := true }) [(false, "ACCESS_GRANTED")]).1) :=
  send_degraded_and_transient { is_open := true } false "ACCESS_GRANTED" "ACCESS_DENIED"
    [(false, "ACCESS_GRANTED")] rfl

/-- C8 (counterexample to the claim as stated): on the quit-key path with
camera and serial open, the display teardown (`cv2.destroyAllWindows`) is
invoked twice — once inside `cleanup` and once more by the top-level
`finally` — so the display resource is not released exactly once. -/
theorem quitShutdown_display_counterexample :
    ((quitShutdown
        { running := true, cap_open := true, ser := some { is_open := true } }).2.count
      ReleaseEvent.dispDestroy = 2) ∧
    ¬ ((quitShutdown
        { running := true, cap_open := true, ser := some { is_open := true } }).2.count
      ReleaseEvent.dispDestroy = 1) := by
  decide

/-- C8 (amended): on the quit-key shutdown path, the `running` flag is
cleared — so each worker loop exits on its next iteration, as witnessed on
the capture and inference loop models — and, when camera and serial are
open, the camera is released exactly once and the serial port closed
exactly once, while the display teardown is invoked exactly twice (once by
`cleanup`, once by the top-level `finally`). -/
theorem quitShutdown_spec (s : SysState) (p : SerialPort) (reads : List (Option Nat))
    (cs : CaptureState) (fuel : Nat) (ps : ProcState)
    (hcap : s.cap_open = true) (hser : s.ser = some p) (hopen : p.is_open = true)
    (hcr : cs.running = false) (hpr : ps.running = false) :
    ((quitShutdown s).1.running = false) ∧
    ((quitShutdown s).2.count ReleaseEvent.camRelease = 1) ∧
    ((quitShutdown s).2.count ReleaseEvent.serClose = 1) ∧
    ((quitShutdown s).2.count ReleaseEvent.dispDestroy = 2) ∧
    (capture_frames reads cs = cs) ∧
    (process_frames fuel ps = ps) := by
  have hev : (quitShutdown s).2 =
      [ReleaseEvent.camRelease, ReleaseEvent.serClose, ReleaseEvent.dispDestroy,
        ReleaseEvent.dispDestroy] := by
    dsimp only [quitShutdown, cleanup]
    rw [hcap, hser]
    dsimp only
    rw [hopen]
    rfl
  refine ⟨rfl, ?_, ?_, ?_, ?_, ?_⟩
  · rw [hev]; rfl
  · rw [hev]; rfl
  · rw [hev]; rfl
  · cases reads with
    | nil => rfl
    | cons r rest =>
      dsimp only [capture_frames]
      rw [hcr]
      rfl
  · cases fuel with
    | zero => rfl
    | succ n =>
      dsimp only [process_frames]
      rw [hpr]
      rfl

/-- Closed witness for the amended C8 theorem. -/
theorem quitShutdown_spec_witness :
    ((quitShutdown ⟨true, true, some ⟨true⟩⟩).1.running = false) ∧
    ((quitShutdown ⟨true, true, some ⟨true⟩⟩).2.count ReleaseEvent.camRelease = 1) ∧
    ((quitShutdown ⟨true, true, some ⟨true⟩⟩).2.count ReleaseEvent.serClose = 1) ∧
    ((quitShutdown ⟨true, true, some ⟨true⟩⟩).2.count ReleaseEvent.dispDestroy = 2) ∧
    (capture_frames [some 1] ⟨false, 0, [], [], []⟩ = ⟨false, 0, [], [], []⟩) ∧
    (process_frames 3 ⟨false, [], []⟩ = ⟨false, [], []⟩) :=
  quitShutdown_spec ⟨true, true, some ⟨true⟩⟩ ⟨true⟩ [some 1] ⟨false, 0, [], [], []⟩
    3 ⟨false, [], []⟩ rfl rfl rfl rfl rfl

/-- An iteration with no available result only fires the refresh logic. -/
theorem runStep_none (ser : Option SerialPort) (wfail : Bool) (t : Nat) (s : RunState) :
    runStep ser wfail none t s =
      if t - s.last_detection_time > 5 then
        { state := { s with last_detection_time := t }, sends := [s.current_status],
          wires := (send_to_esp32 ser wfail s.current_status).1 }
      else { state := s, sends := [], wires := [] } := by
  dsimp only [runStep, consumeResult, refreshStep]
  by_cases h : t - s.last_detection_time > 5
  · rw [if_pos h, if_pos h]
    simp
  · rw [if_neg h, if_neg h]
    rfl

/-- An iteration consuming a result whose status differs from the current
one performs exactly the transition send; the refresh cannot also fire in
that iteration because its clock was just reset. -/
theorem runStep_change (ser : Option SerialPort) (wfail : Bool) (st : String) (t : Nat)
    (s : RunState) (h : st ≠ s.current_status) :
    runStep ser wfail (some st) t s =
      { state := { current_status := st, last_detection_time := t }, sends := [st],
        wires := (send_to_esp32 ser wfail st).1 } := by
  dsimp only [runStep, consumeResult, refreshStep]
  rw [if_pos h]
  dsimp only
  rw [if_neg (by omega)]
  simp

/-- An iteration consuming a result with an unchanged status behaves exactly
like an iteration with no result at all. -/
theorem runStep_same (ser : Option SerialPort) (wfail : Bool) (st : String) (t : Nat)
    (s : RunState) (h : st = s.current_status) :
    runStep ser wfail (some st) t s = runStep ser wfail none t s := by
  dsimp only [runStep, consumeResult]
  rw [if_neg (by simpa using h)]

/-- Along any trace, the number of `send_to_esp32` invocations equals the
number of status transitions plus the number of refresh firings. -/
theorem runTrace_send_count (ser : Option SerialPort) (wfail : Bool)
    (evs : List (Option String × Nat)) (s : RunState) :
    (runTrace ser wfail evs s).sends.length =
      countTransitions evs s.current_status +
        countRefreshes evs s.current_status s.last_detection_time := by
  induction evs generalizing s with
  | nil => rfl
  | cons e rest ih =>
    obtain ⟨res, t⟩ := e
    cases res with
    | none =>
      dsimp only [runTrace, countTransitions, countRefreshes]
      rw [runStep_none]
      by_cases h : t - s.last_detection_time > 5
      · rw [if_pos h, if_pos h]
        dsimp only
        rw [List.length_append, ih]
        dsimp only [List.length_cons, List.length_nil]
        omega
      · rw [if_neg h, if_neg h]
        dsimp only
        rw [List.length_append, ih]
        dsimp only [List.length_nil]
        omega
    | some st =>
      by_cases hne : st ≠ s.current_status
      · dsimp only [runTrace, countTransitions, countRefreshes]
        rw [runStep_change ser wfail st t s hne]
        rw [if_pos hne, if_pos hne]
        dsimp only
        rw [if_neg (by omega)]
        rw [List.length_append, ih]
        dsimp only [List.length_cons, List.length_nil]
        omega
      · push_neg at hne
        subst hne
        dsimp only [runTrace, countTransitions, countRefreshes]
        rw [runStep_same ser wfail _ t s rfl, runStep_none]
        have hcc : ¬ s.current_status ≠ s.current_status := fun hc => hc rfl
        simp only [if_neg hcc]
        by_cases h : t - s.last_detection_time > 5
        · rw [if_pos h, if_pos h]
          dsimp only
          rw [List.length_append, ih]
          dsimp only [List.length_cons, List.length_nil]
          omega
        · rw [if_neg h, if_neg h]
          dsimp only
          rw [List.length_append, ih]
          dsimp only [List.length_nil]
          omega

/-- C2: along every control-loop trace, `send_to_esp32` is invoked exactly
once per status transition plus once per elapsed 5-second window in which
no transition occurred (refresh firing); moreover an iteration consuming a
result with unchanged status and an unexpired refresh clock performs no
send at all. -/
theorem run_send_discipline (ser : Option SerialPort) (wfail : Bool)
    (evs : List (Option String × Nat)) (s : RunState) (st : String) (t : Nat) :
    ((runTrace ser wfail evs s).sends.length =
      countTransitions evs s.current_status +
        countRefreshes evs s.current_status s.last_detection_time) ∧
    (st = s.current_status → ¬ t - s.last_detection_time > 5 →
      (runStep ser wfail (some st) t s).sends = []) := by
  refine ⟨runTrace_send_count ser wfail evs s, fun h1 h2 => ?_⟩
  rw [runStep_same ser wfail st t s h1, runStep_none, if_neg h2]

/-- Closed witness for the C2 theorem: one transition followed by a refresh,
and a same-status iteration that sends nothing. -/
theorem run_send_discipline_witness :
    ((runTrace (some ⟨true⟩) false [(some "ACCESS_DENIED", 1), (none, 9)]
        (initialRunState 0)).sends.length =
      countTransitions [(some "ACCESS_DENIED", 1), (none, 9)]
          (initialRunState 0).current_status +
        countRefreshes [(some "ACCESS_DENIED", 1), (none, 9)]
          (initialRunState 0).current_status (initialRunState 0).last_detection_time) ∧
    ((runStep (some ⟨true⟩) false (some "CHECKING") 1 (initialRunState 0)).sends = []) :=
  ⟨(run_send_discipline (some ⟨true⟩) false [(some "ACCESS_DENIED", 1), (none, 9)]
      (initialRunState 0) "CHECKING" 1).1,
   (run_send_discipline (some ⟨true⟩) false [] (initialRunState 0) "CHECKING" 1).2
      rfl (by decide)⟩

/-- C3 (counterexample to the claim as stated): with an open serial port and
no result yet consumed, the periodic refresh from the initial state writes
the message `"CHECKING" ++ "\n"` to the wire, and `"CHECKING"` is neither
`"ACCESS_GRANTED"` nor `"ACCESS_DENIED"`. -/
theorem checking_wired_counterexample :
    ((runTrace (some ⟨true⟩) false [(none, 6)] (initialRunState 0)).wires =
      ["CHECKING" ++ "\n"]) ∧
    ¬ ("CHECKING" = "ACCESS_GRANTED" ∨ "CHECKING" = "ACCESS_DENIED") := by
  decide

/-- A message on the wire from one `send_to_esp32` call is the framed status
of that call. -/
theorem send_wire_mem (ser : Option SerialPort) (wfail : Bool) (st m : String)
    (hm : m ∈ (send_to_esp32 ser wfail st).1) : m = st ++ "\n" := by
  cases ser with
  | none => simp [send_to_esp32] at hm
  | some p =>
    by_cases ho : p.is_open = true
    · cases wfail with
      | false =>
        simp [send_to_esp32, serialWrite, ho] at hm
        exact hm
      | true => simp [send_to_esp32, serialWrite, ho] at hm
    · simp [send_to_esp32, ho] at hm

/-- Every status passed to `send_to_esp32` in one iteration is either the
iteration's incoming current status or the consumed result's status. -/
theorem runStep_sends_mem (ser : Option SerialPort) (wfail : Bool) (res : Option String)
    (t : Nat) (s : RunState) (st' : String)
    (h : st' ∈ (runStep ser wfail res t s).sends) :
    st' = s.current_status ∨ res = some st' := by
  cases res with
  | none =>
    rw [runStep_none] at h
    by_cases hr : t - s.last_detection_time > 5
    · rw [if_pos hr] at h
      simp only [List.mem_singleton] at h
      exact Or.inl h
    · rw [if_neg hr] at h
      simp at h
  | some st =>
    by_cases hne : st ≠ s.current_status
    · rw [runStep_change ser wfail st t s hne] at h
      simp only [List.mem_singleton] at h
      exact Or.inr (by rw [h])
    · push_neg at hne
      rw [runStep_same ser wfail st t s hne, runStep_none] at h
      by_cases hr : t - s.last_detection_time > 5
      · rw [if_pos hr] at h
        simp only [List.mem_singleton] at h
        exact Or.inl h
      · rw [if_neg hr] at h
        simp at h

/-- The current status after one iteration is the incoming one or the
consumed result's status. -/
theorem runStep_state_status (ser : Option SerialPort) (wfail : Bool)
    (res : Option String) (t : Nat) (s : RunState) :
    (runStep ser wfail res t s).state.current_status = s.current_status ∨
      res = some ((runStep ser wfail res t s).state.current_status) := by
  cases res with
  | none =>
    rw [runStep_none]
    by_cases hr : t - s.last_detection_time > 5
    · rw [if_pos hr]
      exact Or.inl rfl
    · rw [if_neg hr]
      exact Or.inl rfl
  | some st =>
    by_cases hne : st ≠ s.current_status
    · rw [runStep_change ser wfail st t s hne]
      exact Or.inr rfl
    · push_neg at hne
      rw [runStep_same ser wfail st t s hne, runStep_none]
      by_cases hr : t - s.last_detection_time > 5
      · rw [if_pos hr]
        exact Or.inl rfl
      · rw [if_neg hr]
        exact Or.inl rfl

/-- Message provenance for one iteration. -/
theorem runStep_wires_mem (ser : Option SerialPort) (wfail : Bool) (res : Option String)
    (t : Nat) (s : RunState) (m : String)
    (hm : m ∈ (runStep ser wfail res t s).wires) :
    ∃ st', m = st' ++ "\n" ∧ (st' = s.current_status ∨ res = some st') := by
  have hw : (runStep ser wfail res t s).wires =
      ((runStep ser wfail res t s).sends.map
        (fun st => (send_to_esp32 ser wfail st).1)).flatten := rfl
  rw [hw] at hm
  rcases List.mem_flatten.mp hm with ⟨l, hl, hml⟩
  rcases List.mem_map.mp hl with ⟨st', hst', rfl⟩
  exact ⟨st', send_wire_mem ser wfail st' m hml,
    runStep_sends_mem ser wfail res t s st' hst'⟩

/-- Message provenance along a whole trace. -/
theorem runTrace_wires_mem (ser : Option SerialPort) (wfail : Bool)
    (evs : List (Option String × Nat)) (s : RunState) (m : String)
    (hm : m ∈ (runTrace ser wfail evs s).wires) :
    ∃ st, m = st ++ "\n" ∧ (st = s.current_status ∨ ∃ e ∈ evs, e.1 = some st) := by
  induction evs generalizing s with
  | nil => simp [runTrace] at hm
  | cons e rest ih =>
    obtain ⟨res, t⟩ := e
    dsimp only [runTrace] at hm
    rcases List.mem_append.mp hm with h1 | h2
    · rcases runStep_wires_mem ser wfail res t s m h1 with ⟨st, heq, hor⟩
      refine ⟨st, heq, ?_⟩
      rcases hor with h | h
      · exact Or.inl h
      · exact Or.inr ⟨(res, t), List.mem_cons_self _ _, h⟩
    · rcases ih _ h2 with ⟨st, heq, hor⟩
      refine ⟨st, heq, ?_⟩
      rcases hor with h | h
      · rcases runStep_state_status ser wfail res t s with hs | hs
        · exact Or.inl (h.trans hs)
        · rw [← h] at hs
          exact Or.inr ⟨(res, t), List.mem_cons_self _ _, hs⟩
      · rcases h with ⟨e, he, hee⟩
        exact Or.inr ⟨e, List.mem_cons_of_mem _ he, hee⟩

/-- The status computation only ever returns GRANTED or DENIED. -/
theorem computeStatus_eq_or (labels : List (List Char)) :
    computeStatus labels = "ACCESS_GRANTED" ∨ computeStatus labels = "ACCESS_DENIED" := by
  dsimp only [computeStatus]
  split
  · exact Or.inl rfl
  · exact Or.inr rfl

/-- Results present after an inference iteration were already queued or
carry a status computed by `computeStatus`, hence GRANTED or DENIED. -/
theorem processStep_result_status (ps : ProcState) (q : String × List (List Char))
    (hq : q ∈ (processStep ps).result_queue) :
    q ∈ ps.result_queue ∨ q.1 = "ACCESS_GRANTED" ∨ q.1 = "ACCESS_DENIED" := by
  dsimp only [processStep] at hq
  cases hfq : ps.frame_queue with
  | nil =>
    rw [hfq] at hq
    exact Or.inl hq
  | cons labels rest =>
    rw [hfq] at hq
    dsimp only at hq
    by_cases hlen : ps.result_queue.length < 2
    · rw [if_pos hlen] at hq
      rcases List.mem_append.mp hq with h | h
      · exact Or.inl h
      · simp only [List.mem_singleton] at h
        rw [h]
        exact Or.inr (computeStatus_eq_or labels)
    · rw [if_neg hlen] at hq
      exact Or.inl hq

/-- C3 (amended): every message written to the serial wire is a framed
status `st ++ "\n"` where `st` is either the status current at the start of
the trace — `"CHECKING"` when the trace starts at the initial state, which
persists only until the first transition — or the status of some consumed
result; and the inference stage only queues results whose status is
`"ACCESS_GRANTED"` or `"ACCESS_DENIED"`; hence only the periodic refresh
fired before the first consumed result can put `"CHECKING"` on the wire. -/
theorem run_wires_provenance (ser : Option SerialPort) (wfail : Bool)
    (evs : List (Option String × Nat)) (s : RunState) (m : String) (ps : ProcState)
    (q : String × List (List Char))
    (hm : m ∈ (runTrace ser wfail evs s).wires)
    (hq : q ∈ (processStep ps).result_queue) :
    (∃ st, m = st ++ "\n" ∧ (st = s.current_status ∨ ∃ e ∈ evs, e.1 = some st)) ∧
    (q ∈ ps.result_queue ∨ q.1 = "ACCESS_GRANTED" ∨ q.1 = "ACCESS_DENIED") :=
  ⟨runTrace_wires_mem ser wfail evs s m hm, processStep_result_status ps q hq⟩

/-- Closed witness for the amended C3 theorem. -/
theorem run_wires_provenance_witness :
    (∃ st, "ACCESS_DENIED" ++ "\n" = st ++ "\n" ∧
      (st = (initialRunState 0).current_status ∨
        ∃ e ∈ [((some "ACCESS_DENIED" : Option String), (1 : Nat))], e.1 = some st)) ∧
    ((("ACCESS_DENIED", ([] : List (List Char))) ∈
        (⟨true, [[]], []⟩ : ProcState).result_queue) ∨
      ("ACCESS_DENIED", ([] : List (List Char))).1 = "ACCESS_GRANTED" ∨
      ("ACCESS_DENIED", ([] : List (List Char))).1 = "ACCESS_DENIED") :=
  run_wires_provenance (some ⟨true⟩) false [(some "ACCESS_DENIED", 1)]
    (initialRunState 0) ("ACCESS_DENIED" ++ "\n") ⟨true, [[]], []⟩
    ("ACCESS_DENIED", []) (by decide) (by decide)

/-- C10: a consumed result with a new status updates `current_status` and
`last_detection_time` identically whatever the serial channel does — open,
absent (degraded mode) or failing mid-write — because `send_to_esp32`
catches its own errors; and the message is not retried: a later iteration
with the same status and an unexpired refresh clock sends nothing. -/
theorem transition_update_independent_of_serial (ser ser' : Option SerialPort)
    (wfail wfail' : Bool) (st : String) (t t' : Nat) (s : RunState)
    (hne : st ≠ s.current_status) :
    ((runStep ser wfail (some st) t s).state =
      { current_status := st, last_detection_time := t }) ∧
    ((runStep ser wfail (some st) t s).state =
      (runStep ser' wfail' (some st) t s).state) ∧
    (¬ t' - t > 5 →
      (runStep ser wfail (some st) t'
        { current_status := st, last_detection_time := t }).sends = []) := by
  refine ⟨?_, ?_, fun h => ?_⟩
  · rw [runStep_change ser wfail st t s hne]
  · rw [runStep_change ser wfail st t s hne, runStep_change ser' wfail' st t s hne]
  · rw [runStep_same ser wfail st t' _ rfl, runStep_none, if_neg h]

/-- Closed witness for the C10 theorem. -/
theorem transition_update_independent_of_serial_witness :
    ((runStep none true (some "ACCESS_GRANTED") 3 (initialRunState 0)).state =
      { current_status := "ACCESS_GRANTED", last_detection_time := 3 }) ∧
    ((runStep none true (some "ACCESS_GRANTED") 3 (initialRunState 0)).state =
      (runStep (some ⟨true⟩) false (some "ACCESS_GRANTED") 3 (initialRunState 0)).state) ∧
    ((runStep none true (some "ACCESS_GRANTED") 5
        { current_status := "ACCESS_GRANTED", last_detection_time := 3 }).sends = []) :=
  have h := transition_update_independent_of_serial none (some ⟨true⟩) true false
    "ACCESS_GRANTED" 3 5 (initialRunState 0) (by decide)
  ⟨h.1, h.2.1, h.2.2 (by decide)⟩
